import Mathlib

/-!
Verification of the estimation engine of `wheat_n_estimation/n_estimator.py`
(class `NitrogenEstimator`): single-observation nitrogen estimation from
vegetation indices, the time-series prediction loop, and quality
classification.

Modelling conventions:
* Python `float` values are modelled by exact rationals (`ℚ`); the spec's
  floating tolerances (1e-6, 1e-9) are subsumed by exact equality.
* A Python `dict` of vegetation indices is an association list
  `List (String × ℚ)`; `List.lookup` models `in` / `[...]` access.
* `raise ValueError(msg)` is modelled by `Except.error msg`.
* The one irrational computation, `np.sqrt(np.mean([rmse**2 ...]))`, is
  carried as its radicand in the field `rmseSq`; `Real.sqrt` is applied at
  the statement level where a claim speaks about the RMSE itself.
-/

namespace WheatN

/-- A vegetation-index mapping (Python `dict` of index name → value). -/
abbrev Indices := List (String × ℚ)

/-- Per-method confidence record, matching the dicts stored in
`confidence_intervals` (lines 45–49, 58–62, 71–75 of `n_estimator.py`). -/
structure ConfidenceInterval where
  estimate : ℚ
  rmse : ℚ
  r2 : ℚ
deriving DecidableEq, Repr

/-- Uncertainty metrics of a single estimation (lines 106–110).
The source stores `np.sqrt` of `rmseSq`; the square root of a rational is
irrational in general, so the embedding carries the radicand
`mean(rmse_i²)` and applies `Real.sqrt` in theorem statements. -/
structure UncertaintyMetrics where
  rmseSq : ℚ
  r2_mean : ℚ
  sample_size : ℕ
deriving DecidableEq, Repr

/-- The dictionary returned by `estimate_n_content_from_indices`
(lines 103–112). -/
structure EstimationResult where
  n_content : ℚ
  confidence_intervals : List (String × ConfidenceInterval)
  uncertainty : UncertaintyMetrics
  method_weights : List (String × ℚ)
deriving DecidableEq, Repr

/-- The `n_estimates` list built by lines 38–75: triples
(method name, N estimate, R² weight), appended in source order
NDRE, CIred-edge, MCARI whenever the corresponding index is present. -/
def n_estimates (indices : Indices) : List (String × ℚ × ℚ) :=
  (match indices.lookup "NDRE" with
    | some ndre => [("NDRE", 414/100 * ndre + 42/100, 89/100)]
    | none => []) ++
  (match indices.lookup "CIred-edge" with
    | some ci => [("CIred-edge", 288/100 * ci + 97/100, 87/100)]
    | none => []) ++
  (match indices.lookup "MCARI" with
    | some mcari => [("MCARI", 352/100 * mcari + 112/100, 83/100)]
    | none => [])

/-- The `confidence_intervals` dict built alongside `n_estimates`
(lines 38–75), keyed by method name in insertion order. -/
def confidence_intervals (indices : Indices) : List (String × ConfidenceInterval) :=
  (match indices.lookup "NDRE" with
    | some ndre => [("NDRE", ⟨414/100 * ndre + 42/100, 31/100, 89/100⟩)]
    | none => []) ++
  (match indices.lookup "CIred-edge" with
    | some ci => [("CIred-edge", ⟨288/100 * ci + 97/100, 34/100, 87/100⟩)]
    | none => []) ++
  (match indices.lookup "MCARI" with
    | some mcari => [("MCARI", ⟨352/100 * mcari + 112/100, 39/100, 83/100⟩)]
    | none => [])

/-- SAVI soil-background adjustment factor (lines 77–85). -/
def savi_correction (indices : Indices) : ℚ :=
  match indices.lookup "SAVI" with
  | some savi => if savi < 1/5 then 85/100 else if savi > 7/10 then 112/100 else 1
  | none => 1

/-- `NitrogenEstimator.estimate_n_content_from_indices` (lines 24–114):
R²-weighted fusion of the applicable per-method estimates, SAVI
correction, clamp to [1.5, 6.0] via `np.clip`, uncertainty aggregation,
and normalized method weights; raises `ValueError` when `n_estimates`
is empty. -/
def estimate_n_content_from_indices (indices : Indices) :
    Except String EstimationResult :=
  let ests := n_estimates indices
  let cis := confidence_intervals indices
  if ests.isEmpty then
    Except.error "No valid indices available for N content estimation"
  else
    let total_weight := (ests.map (fun t => t.2.2)).sum
    let weighted_n := (ests.map (fun t => t.2.1 * t.2.2)).sum / total_weight
    let n_content := weighted_n * savi_correction indices
    let clamped := min (max n_content (3/2)) 6
    Except.ok
      { n_content := clamped
        confidence_intervals := cis
        uncertainty :=
          { rmseSq := ((cis.map (fun c => c.2.rmse ^ 2)).sum) / (cis.length : ℚ)
            r2_mean := ((cis.map (fun c => c.2.r2)).sum) / (cis.length : ℚ)
            sample_size := ests.length }
        method_weights := ests.map (fun t => (t.1, t.2.2 / total_weight)) }

/-- One entry of the time series fed to `predict`: a dated index set. -/
structure TSEntry where
  date : String
  indices : Indices
deriving DecidableEq, Repr

/-- A successful estimation with its date attached (lines 130–132). -/
structure DatedEstimationResult where
  date : String
  result : EstimationResult
deriving DecidableEq, Repr

/-- `NitrogenEstimator.predict` (lines 116–137): iterates the entries in
order, appends each successful estimation with its date, and skips (with
a printed warning, which has no observable value here) any entry whose
estimation raises `ValueError`. -/
def predict : List TSEntry → List DatedEstimationResult
  | [] => []
  | e :: rest =>
    match estimate_n_content_from_indices e.indices with
    | Except.ok r => { date := e.date, result := r } :: predict rest
    | Except.error _ => predict rest

/-- Input to `get_estimation_quality`: the two uncertainty fields it
reads (lines 149–151). -/
structure QualityMetrics where
  r2_mean : ℚ
  rmse : ℚ
deriving DecidableEq, Repr

/-- `NitrogenEstimator.get_estimation_quality` (lines 139–154). -/
def get_estimation_quality (u : QualityMetrics) : String :=
  if u.r2_mean > 85/100 ∧ u.rmse < 35/100 then "High Confidence"
  else if u.r2_mean > 75/100 ∧ u.rmse < 45/100 then "Moderate Confidence"
  else "Low Confidence"

/-- One row of the spec's fixed regression table (§4.1). -/
structure RegMethod where
  key : String
  slope : ℚ
  intercept : ℚ
  r2 : ℚ
  rmse : ℚ
deriving DecidableEq, Repr

/-- The spec's fixed regression table (§4.1): method, linear coefficients,
reference R², reference RMSE. -/
def regressionTable : List RegMethod :=
  [{ key := "NDRE", slope := 414/100, intercept := 42/100, r2 := 89/100, rmse := 31/100 },
   { key := "CIred-edge", slope := 288/100, intercept := 97/100, r2 := 87/100, rmse := 34/100 },
   { key := "MCARI", slope := 352/100, intercept := 112/100, r2 := 83/100, rmse := 39/100 }]

/-- The table rows whose source index is present in the input — the
spec's "applicable methods". -/
def applicableMethods (indices : Indices) : List RegMethod :=
  regressionTable.filter (fun m => (indices.lookup m.key).isSome)

/-- A method's predicted N value on the given indices (0 when its index
is absent; only used on applicable methods). -/
def methodEstimate (indices : Indices) (m : RegMethod) : ℚ :=
  m.slope * ((indices.lookup m.key).getD 0) + m.intercept

/-- Spec-side fused estimate (§4.1): `n = Σ(estimate_i · r2_i) / Σ(r2_i)`
over applicable methods. -/
def fused_spec (indices : Indices) : ℚ :=
  ((applicableMethods indices).map (fun m => methodEstimate indices m * m.r2)).sum /
    ((applicableMethods indices).map (fun m => m.r2)).sum

/-- Spec-side SAVI factor (§4.1): 0.85 if SAVI present and < 0.2, 1.12 if
SAVI present and > 0.7, else 1.0. -/
def savi_factor_spec (indices : Indices) : ℚ :=
  match indices.lookup "SAVI" with
  | none => 1
  | some savi => if savi < 1/5 then 85/100 else if savi > 7/10 then 112/100 else 1

/-- Spec-side final value (§4.1): fused estimate times SAVI factor,
clamped to the physiological range [1.5, 6.0]. -/
def n_content_spec (indices : Indices) : ℚ :=
  min (max (fused_spec indices * savi_factor_spec indices) (3/2)) 6

/-- At least one of the three contributing indices is present. -/
def has_applicable (indices : Indices) : Prop :=
  (indices.lookup "NDRE").isSome ∨ (indices.lookup "CIred-edge").isSome ∨
    (indices.lookup "MCARI").isSome

instance (indices : Indices) : Decidable (has_applicable indices) := by
  unfold has_applicable; infer_instance

/-- Golden-test input of spec §8. -/
def goldenIndices : Indices :=
  [("NDRE", 1/2), ("CIred-edge", 2), ("MCARI", 3/10), ("SAVI", 3/5)]

/-- A valid time-series entry (NDRE present). -/
def validEntry : TSEntry := { date := "2024-02-01", indices := [("NDRE", 1/2)] }

/-- An invalid time-series entry (no contributing index). -/
def invalidEntry : TSEntry := { date := "2024-02-11", indices := [("NDVI", -1)] }

/-- The exact result of the golden-test input of spec §8. -/
def goldenResult : EstimationResult :=
  { n_content := 17638/4625
    confidence_intervals :=
      [("NDRE", ⟨249/100, 31/100, 89/100⟩),
       ("CIred-edge", ⟨673/100, 34/100, 87/100⟩),
       ("MCARI", ⟨272/125, 39/100, 83/100⟩)]
    uncertainty := { rmseSq := 1819/15000, r2_mean := 259/300, sample_size := 3 }
    method_weights := [("NDRE", 89/259), ("CIred-edge", 87/259), ("MCARI", 83/259)] }

/-- The exact result of estimating the singleton mapping {NDRE: 0.5}. -/
def ndreResult : EstimationResult :=
  { n_content := 249/100
    confidence_intervals := [("NDRE", ⟨249/100, 31/100, 89/100⟩)]
    uncertainty := { rmseSq := 961/10000, r2_mean := 89/100, sample_size := 1 }
    method_weights := [("NDRE", 1)] }

/-! ## Helper lemmas -/

/-- The code's `n_estimates` list is the spec table restricted to
applicable methods, with the per-method linear estimate and R² weight. -/
lemma n_estimates_eq_applicable (indices : Indices) :
    n_estimates indices = (applicableMethods indices).map
      (fun m => (m.key, methodEstimate indices m, m.r2)) := by
  cases h1 : indices.lookup "NDRE" <;> cases h2 : indices.lookup "CIred-edge" <;>
    cases h3 : indices.lookup "MCARI" <;>
    simp [n_estimates, applicableMethods, regressionTable, methodEstimate, h1, h2, h3]

/-- The code's `confidence_intervals` dict is the spec table restricted to
applicable methods, with each method's estimate and reference RMSE/R². -/
lemma confidence_intervals_eq_applicable (indices : Indices) :
    confidence_intervals indices = (applicableMethods indices).map
      (fun m => (m.key, ⟨methodEstimate indices m, m.rmse, m.r2⟩)) := by
  cases h1 : indices.lookup "NDRE" <;> cases h2 : indices.lookup "CIred-edge" <;>
    cases h3 : indices.lookup "MCARI" <;>
    simp [confidence_intervals, applicableMethods, regressionTable, methodEstimate, h1, h2, h3]

/-- `n_estimates` is empty exactly when no contributing index is present. -/
lemma n_estimates_eq_nil_iff (indices : Indices) :
    n_estimates indices = [] ↔ ¬ has_applicable indices := by
  cases h1 : indices.lookup "NDRE" <;> cases h2 : indices.lookup "CIred-edge" <;>
    cases h3 : indices.lookup "MCARI" <;>
    simp [n_estimates, has_applicable, h1, h2, h3]

/-- The code's SAVI factor coincides with the spec's SAVI factor. -/
lemma savi_correction_eq_spec (indices : Indices) :
    savi_correction indices = savi_factor_spec indices := by
  unfold savi_correction savi_factor_spec
  cases indices.lookup "SAVI" <;> rfl

/-- Explicit form of a successful estimation. -/
lemma estimate_eq_ok (indices : Indices) (h : n_estimates indices ≠ []) :
    estimate_n_content_from_indices indices = Except.ok
      { n_content := min (max ((((n_estimates indices).map (fun t => t.2.1 * t.2.2)).sum /
            ((n_estimates indices).map (fun t => t.2.2)).sum) * savi_correction indices) (3/2)) 6
        confidence_intervals := confidence_intervals indices
        uncertainty :=
          { rmseSq := (((confidence_intervals indices).map (fun c => c.2.rmse ^ 2)).sum) /
              ((confidence_intervals indices).length : ℚ)
            r2_mean := (((confidence_intervals indices).map (fun c => c.2.r2)).sum) /
              ((confidence_intervals indices).length : ℚ)
            sample_size := (n_estimates indices).length }
        method_weights := (n_estimates indices).map
          (fun t => (t.1, t.2.2 / ((n_estimates indices).map (fun s => s.2.2)).sum)) } := by
  unfold estimate_n_content_from_indices
  simp [List.isEmpty_iff, h]

/-- The estimation raises exactly the source's `ValueError` message when no
contributing index is present. -/
lemma estimate_error_of_none (indices : Indices) (h : ¬ has_applicable indices) :
    estimate_n_content_from_indices indices =
      Except.error "No valid indices available for N content estimation" := by
  unfold estimate_n_content_from_indices
  simp [List.isEmpty_iff, (n_estimates_eq_nil_iff indices).mpr h]

/-- `n_estimates` is nonempty whenever a contributing index is present. -/
lemma n_estimates_ne_nil (indices : Indices) (h : has_applicable indices) :
    n_estimates indices ≠ [] :=
  fun hnil => (n_estimates_eq_nil_iff indices).mp hnil h

/-- The total R² weight of a successful estimation is positive. -/
lemma total_weight_pos (indices : Indices) (h : has_applicable indices) :
    0 < ((n_estimates indices).map (fun t => t.2.2)).sum := by
  cases h1 : indices.lookup "NDRE" <;> cases h2 : indices.lookup "CIred-edge" <;>
    cases h3 : indices.lookup "MCARI" <;>
    simp [n_estimates, has_applicable, h1, h2, h3] at h ⊢ <;> norm_num

/-! ## Claims -/

/-- C1: for every index mapping containing at least one of NDRE, CIred-edge,
MCARI, `estimate_n_content_from_indices` succeeds and its `n_content` is the
R²-weighted average of the applicable per-method linear estimates
(NDRE: 4.14·x+0.42 with weight 0.89; CIred-edge: 2.88·x+0.97 with weight
0.87; MCARI: 3.52·x+1.12 with weight 0.83), multiplied by the SAVI factor,
clamped to [1.5, 6.0] — i.e. exactly the spec-side formula `n_content_spec`
built from `regressionTable` and `savi_factor_spec`. -/
theorem C1_estimate_matches_spec_formula (indices : Indices)
    (h : has_applicable indices) :
    ∃ r, estimate_n_content_from_indices indices = Except.ok r ∧
      r.n_content = n_content_spec indices := by
  refine ⟨_, estimate_eq_ok indices (n_estimates_ne_nil indices h), ?_⟩
  simp only [n_content_spec, fused_spec, savi_correction_eq_spec,
    n_estimates_eq_applicable, List.map_map]
  rfl

/-- C1 witness: the golden input of spec §8,
`{NDRE: 0.5, CIred-edge: 2.0, MCARI: 0.3, SAVI: 0.6}`, yields exactly
`(2.49·0.89 + 6.73·0.87 + 2.176·0.83)/(0.89+0.87+0.83)` (≈ 3.81). -/
theorem C1_estimate_matches_spec_formula_witness :
    has_applicable goldenIndices ∧
    ∃ r, estimate_n_content_from_indices goldenIndices = Except.ok r ∧
      r.n_content = (249/100 * (89/100) + 673/100 * (87/100) + 2176/1000 * (83/100)) /
        (89/100 + 87/100 + 83/100) := by
  have h : has_applicable goldenIndices := by
    simp [has_applicable, goldenIndices, List.lookup]
  refine ⟨h, ?_⟩
  obtain ⟨r, hr, hn⟩ := C1_estimate_matches_spec_formula goldenIndices h
  refine ⟨r, hr, ?_⟩
  rw [hn]
  have hA : applicableMethods goldenIndices = regressionTable := by
    simp [applicableMethods, regressionTable, goldenIndices, List.lookup]
  rw [n_content_spec, fused_spec, hA]
  simp [regressionTable, methodEstimate, savi_factor_spec, goldenIndices, List.lookup]
  norm_num [min_def, max_def]

/-- C2 counterexample: the claim says a supplied index value outside its
physically legal domain is rejected with a validation error; but with
NDRE = −5 (far outside the [−1, 1] range of a normalized-difference
index) the code returns a clamped estimate of 1.5 instead of raising. -/
theorem C2_domain_validation_counterexample :
    estimate_n_content_from_indices [("NDRE", -5)] = Except.ok
      { n_content := 3/2
        confidence_intervals := [("NDRE", ⟨-507/25, 31/100, 89/100⟩)]
        uncertainty := { rmseSq := 961/10000, r2_mean := 89/100, sample_size := 1 }
        method_weights := [("NDRE", 1)] } := by
  simp [estimate_n_content_from_indices, n_estimates, confidence_intervals,
    savi_correction, List.lookup]
  norm_num [min_def, max_def]

/-- C2 amended: the code performs no per-index domain validation — for every
NDRE value whatsoever (legal or physically impossible) the estimation
succeeds and returns the clamped linear estimate. -/
theorem C2_no_domain_validation_amended (v : ℚ) :
    ∃ r, estimate_n_content_from_indices [("NDRE", v)] = Except.ok r ∧
      r.n_content = min (max (414/100 * v + 42/100) (3/2)) 6 := by
  refine ⟨_, estimate_eq_ok _ (by simp [n_estimates, List.lookup]), ?_⟩
  have h1 : n_estimates [("NDRE", v)] = [("NDRE", 414/100 * v + 42/100, 89/100)] := by
    simp [n_estimates, List.lookup]
  have h2 : savi_correction [("NDRE", v)] = 1 := by
    simp [savi_correction, List.lookup]
  have h3 : ((414/100 * v + 42/100) * (89/100) : ℚ) / (89/100 : ℚ) = 414/100 * v + 42/100 := by
    field_simp
    ring
  simp only [h1, h2, List.map_cons, List.map_nil, List.sum_cons, List.sum_nil,
    mul_one, add_zero, h3]

/-- C3: for every index mapping containing at least one of NDRE, CIred-edge,
MCARI, the estimation succeeds and its `n_content` lies in [1.5, 6.0]. -/
theorem C3_n_content_clamped (indices : Indices) (h : has_applicable indices) :
    ∃ r, estimate_n_content_from_indices indices = Except.ok r ∧
      3/2 ≤ r.n_content ∧ r.n_content ≤ 6 := by
  refine ⟨_, estimate_eq_ok indices (n_estimates_ne_nil indices h), ?_, ?_⟩
  · exact le_min (le_max_right _ _) (by norm_num)
  · exact min_le_right _ _

/-- C3 witness: the singleton mapping {NDRE: 0.5} has an applicable method
and its estimate is within the physiological band. -/
theorem C3_n_content_clamped_witness :
    has_applicable [("NDRE", 1/2)] ∧
    ∃ r, estimate_n_content_from_indices [("NDRE", 1/2)] = Except.ok r ∧
      3/2 ≤ r.n_content ∧ r.n_content ≤ 6 := by
  have h : has_applicable ([("NDRE", 1/2)] : Indices) := by
    simp [has_applicable, List.lookup]
  exact ⟨h, C3_n_content_clamped _ h⟩

/-- C8: `estimate` raises the validation error on an empty mapping and on a
mapping whose only key, NDVI, is not a contributing method. -/
theorem C8_empty_and_inapplicable_raise :
    estimate_n_content_from_indices [] =
      Except.error "No valid indices available for N content estimation"
    ∧ estimate_n_content_from_indices [("NDVI", -1)] =
      Except.error "No valid indices available for N content estimation" := by
  constructor <;>
  · apply estimate_error_of_none
    simp [has_applicable, List.lookup]

/-- C9 (implicit): `estimate` raises exactly when none of NDRE, CIred-edge,
MCARI is present, and succeeds for every rational values whatsoever as soon
as one of them is present — there is no per-index domain or range check. -/
theorem C9_error_iff_no_applicable (indices : Indices) :
    ((∃ e, estimate_n_content_from_indices indices = Except.error e) ↔
      ¬ has_applicable indices)
    ∧ ((∃ r, estimate_n_content_from_indices indices = Except.ok r) ↔
      has_applicable indices) := by
  constructor
  · constructor
    · rintro ⟨e, he⟩ hap
      rw [estimate_eq_ok indices (n_estimates_ne_nil indices hap)] at he
      cases he
    · intro hna
      exact ⟨_, estimate_error_of_none indices hna⟩
  · constructor
    · rintro ⟨r, hr⟩
      by_contra hna
      rw [estimate_error_of_none indices hna] at hr
      cases hr
    · intro hap
      exact ⟨_, estimate_eq_ok indices (n_estimates_ne_nil indices hap)⟩

lemma estimate_golden_eval :
    estimate_n_content_from_indices goldenIndices = Except.ok goldenResult := by
  simp [estimate_n_content_from_indices, n_estimates, confidence_intervals,
    savi_correction, goldenIndices, goldenResult, List.lookup]
  norm_num

lemma estimate_valid_eval :
    estimate_n_content_from_indices validEntry.indices = Except.ok ndreResult := by
  simp [estimate_n_content_from_indices, n_estimates, confidence_intervals,
    savi_correction, validEntry, ndreResult, List.lookup]
  norm_num

lemma estimate_invalid_eval :
    estimate_n_content_from_indices invalidEntry.indices =
      Except.error "No valid indices available for N content estimation" :=
  estimate_error_of_none _ (by simp [has_applicable, invalidEntry, List.lookup])

lemma has_applicable_of_ok (indices : Indices) (r : EstimationResult)
    (h : estimate_n_content_from_indices indices = Except.ok r) :
    has_applicable indices := by
  by_contra hna
  rw [estimate_error_of_none indices hna] at h
  cases h

theorem C4_predict_keeps_valid_entries (ts : List TSEntry) :
    predict ts = ts.filterMap (fun e =>
      match estimate_n_content_from_indices e.indices with
      | Except.ok r => some { date := e.date, result := r }
      | Except.error _ => none)
    ∧ predict ([] : List TSEntry) = []
    ∧ (predict [validEntry, invalidEntry]).map (fun d => d.date) = [validEntry.date] := by
  refine ⟨?_, rfl, ?_⟩
  · induction ts with
    | nil => rfl
    | cons e rest ih =>
      rw [List.filterMap_cons]
      cases hr : estimate_n_content_from_indices e.indices <;>
        simp [predict, hr, ih]
  · simp only [predict, estimate_valid_eval, estimate_invalid_eval]
    rfl

theorem C5_method_weights_normalized (indices : Indices) (r : EstimationResult)
    (h : estimate_n_content_from_indices indices = Except.ok r) :
    r.method_weights = (applicableMethods indices).map
      (fun m => (m.key, m.r2 / ((applicableMethods indices).map (fun m' => m'.r2)).sum))
    ∧ (r.method_weights.map (fun p => p.2)).sum = 1 := by
  have hap : has_applicable indices := has_applicable_of_ok indices r h
  rw [estimate_eq_ok indices (n_estimates_ne_nil indices hap), Except.ok.injEq] at h
  subst h
  constructor
  · simp only [n_estimates_eq_applicable, List.map_map]
    rfl
  · have hpos := total_weight_pos indices hap
    have hsum : ((n_estimates indices).map
        (fun t => t.2.2 / ((n_estimates indices).map (fun s => s.2.2)).sum)).sum =
        ((n_estimates indices).map (fun t => t.2.2)).sum /
          ((n_estimates indices).map (fun s => s.2.2)).sum := by
      simp [div_eq_mul_inv, List.sum_map_mul_right]
    calc (((n_estimates indices).map
            (fun t => (t.1, t.2.2 / ((n_estimates indices).map (fun s => s.2.2)).sum))).map
              (fun p => p.2)).sum
        = ((n_estimates indices).map
            (fun t => t.2.2 / ((n_estimates indices).map (fun s => s.2.2)).sum)).sum := by
          simp [List.map_map, Function.comp_def]
      _ = 1 := by
          rw [hsum]
          exact div_self (ne_of_gt hpos)

theorem C6_uncertainty_aggregation (indices : Indices) (r : EstimationResult)
    (h : estimate_n_content_from_indices indices = Except.ok r) :
    Real.sqrt (r.uncertainty.rmseSq : ℝ) = Real.sqrt
      ((((applicableMethods indices).map (fun m => m.rmse ^ 2)).sum /
        ((applicableMethods indices).length : ℚ) : ℚ) : ℝ)
    ∧ r.uncertainty.r2_mean = ((applicableMethods indices).map (fun m => m.r2)).sum /
        ((applicableMethods indices).length : ℚ)
    ∧ r.uncertainty.sample_size = (applicableMethods indices).length
    ∧ 1 ≤ r.uncertainty.sample_size := by
  have hap : has_applicable indices := has_applicable_of_ok indices r h
  rw [estimate_eq_ok indices (n_estimates_ne_nil indices hap), Except.ok.injEq] at h
  subst h
  have hci : (((confidence_intervals indices).map (fun c => c.2.rmse ^ 2)).sum /
      ((confidence_intervals indices).length : ℚ)) =
      (((applicableMethods indices).map (fun m => m.rmse ^ 2)).sum /
        ((applicableMethods indices).length : ℚ)) := by
    simp only [confidence_intervals_eq_applicable, List.map_map, List.length_map]
    rfl
  have hr2 : (((confidence_intervals indices).map (fun c => c.2.r2)).sum /
      ((confidence_intervals indices).length : ℚ)) =
      (((applicableMethods indices).map (fun m => m.r2)).sum /
        ((applicableMethods indices).length : ℚ)) := by
    simp only [confidence_intervals_eq_applicable, List.map_map, List.length_map]
    rfl
  refine ⟨?_, ?_, ?_, ?_⟩
  · exact congrArg Real.sqrt (congrArg (fun q : ℚ => (q : ℝ)) hci)
  · exact hr2
  · show (n_estimates indices).length = (applicableMethods indices).length
    rw [n_estimates_eq_applicable, List.length_map]
  · exact List.length_pos.mpr (n_estimates_ne_nil indices hap)

theorem C7_quality_thresholds (u : QualityMetrics) :
    (get_estimation_quality u = "High Confidence" ↔
      (85/100 < u.r2_mean ∧ u.rmse < 35/100))
    ∧ (get_estimation_quality u = "Moderate Confidence" ↔
      (¬(85/100 < u.r2_mean ∧ u.rmse < 35/100) ∧ (75/100 < u.r2_mean ∧ u.rmse < 45/100)))
    ∧ (get_estimation_quality u = "Low Confidence" ↔
      (¬(85/100 < u.r2_mean ∧ u.rmse < 35/100) ∧ ¬(75/100 < u.r2_mean ∧ u.rmse < 45/100))) := by
  unfold get_estimation_quality
  split_ifs with h1 h2 <;> simp_all

theorem C10_noninterference (idx1 idx2 : Indices)
    (hN : idx1.lookup "NDRE" = idx2.lookup "NDRE")
    (hC : idx1.lookup "CIred-edge" = idx2.lookup "CIred-edge")
    (hM : idx1.lookup "MCARI" = idx2.lookup "MCARI")
    (hS : idx1.lookup "SAVI" = idx2.lookup "SAVI") :
    estimate_n_content_from_indices idx1 = estimate_n_content_from_indices idx2 := by
  have hest : n_estimates idx1 = n_estimates idx2 := by
    unfold n_estimates; rw [hN, hC, hM]
  have hci : confidence_intervals idx1 = confidence_intervals idx2 := by
    unfold confidence_intervals; rw [hN, hC, hM]
  have hsv : savi_correction idx1 = savi_correction idx2 := by
    unfold savi_correction; rw [hS]
  unfold estimate_n_content_from_indices
  rw [hest, hci, hsv]

/-- C5 witness: on the golden input, the returned method weights
(89/259, 87/259, 83/259) sum to exactly 1. -/
theorem C5_method_weights_normalized_witness :
    estimate_n_content_from_indices goldenIndices = Except.ok goldenResult ∧
    (goldenResult.method_weights.map (fun p => p.2)).sum = 1 :=
  ⟨estimate_golden_eval,
    (C5_method_weights_normalized goldenIndices goldenResult estimate_golden_eval).2⟩

/-- C6 witness: on the golden input, all three methods are applicable, the
sample size is 3 and the mean reference R² is 259/300. -/
theorem C6_uncertainty_aggregation_witness :
    estimate_n_content_from_indices goldenIndices = Except.ok goldenResult ∧
    goldenResult.uncertainty.sample_size = (applicableMethods goldenIndices).length ∧
    1 ≤ goldenResult.uncertainty.sample_size :=
  ⟨estimate_golden_eval,
    (C6_uncertainty_aggregation goldenIndices goldenResult estimate_golden_eval).2.2.1,
    (C6_uncertainty_aggregation goldenIndices goldenResult estimate_golden_eval).2.2.2⟩

/-- C10 witness: {NDRE: 0.5} and {NDVI: −1, NDRE: 0.5, GNDVI: 3} agree on
the four read keys and get identical estimation results. -/
theorem C10_noninterference_witness :
    ([("NDRE", 1/2)] : Indices).lookup "NDRE" =
      ([("NDVI", -1), ("NDRE", 1/2), ("GNDVI", 3)] : Indices).lookup "NDRE" ∧
    ([("NDRE", 1/2)] : Indices).lookup "CIred-edge" =
      ([("NDVI", -1), ("NDRE", 1/2), ("GNDVI", 3)] : Indices).lookup "CIred-edge" ∧
    ([("NDRE", 1/2)] : Indices).lookup "MCARI" =
      ([("NDVI", -1), ("NDRE", 1/2), ("GNDVI", 3)] : Indices).lookup "MCARI" ∧
    ([("NDRE", 1/2)] : Indices).lookup "SAVI" =
      ([("NDVI", -1), ("NDRE", 1/2), ("GNDVI", 3)] : Indices).lookup "SAVI" ∧
    estimate_n_content_from_indices [("NDRE", 1/2)] =
      estimate_n_content_from_indices [("NDVI", -1), ("NDRE", 1/2), ("GNDVI", 3)] := by
  have h1 : ([("NDRE", 1/2)] : Indices).lookup "NDRE" =
      ([("NDVI", -1), ("NDRE", 1/2), ("GNDVI", 3)] : Indices).lookup "NDRE" := by
    simp [List.lookup]
  have h2 : ([("NDRE", 1/2)] : Indices).lookup "CIred-edge" =
      ([("NDVI", -1), ("NDRE", 1/2), ("GNDVI", 3)] : Indices).lookup "CIred-edge" := by
    simp [List.lookup]
  have h3 : ([("NDRE", 1/2)] : Indices).lookup "MCARI" =
      ([("NDVI", -1), ("NDRE", 1/2), ("GNDVI", 3)] : Indices).lookup "MCARI" := by
    simp [List.lookup]
  have h4 : ([("NDRE", 1/2)] : Indices).lookup "SAVI" =
      ([("NDVI", -1), ("NDRE", 1/2), ("GNDVI", 3)] : Indices).lookup "SAVI" := by
    simp [List.lookup]
  exact ⟨h1, h2, h3, h4, C10_noninterference _ _ h1 h2 h3 h4⟩

end WheatN
